import Mathlib

/-
  Verification development for the dAIgest repository.

  The repository ships a React frontend (src/frontend) and a Python backend
  (the Cycle Orchestration Engine).  The backend sources are not part of the
  checked-out tree, so the backend components (Collection Coordinator, Cycle
  State Machine, Summarization Step, Cost Model) are modelled from the
  natural-language specification; each such definition carries a doc comment
  starting with "Modelled from the spec:".  The frontend components
  (apiService.request, CycleCreateDialog, DigestWizard) are shallow embeddings
  of the JavaScript sources.
-/

/-- Model of the JavaScript `String.prototype.trim`: drop whitespace from both
ends of the string.  (Lean's own `String.trim` is equivalent but does not
reduce in the kernel, so we work on the character list directly.) -/
def jsTrim (s : String) : String :=
  String.mk (((s.data.dropWhile Char.isWhitespace).reverse.dropWhile Char.isWhitespace).reverse)

/-- Values stored in a heterogeneous `collect_spec` key-value map (the opaque
per-source configuration payload): strings, numbers and string arrays are the
only shapes the frontend produces. -/
inductive SpecVal where
  | str (v : String)
  | nat (v : Nat)
  | strList (v : List String)
deriving DecidableEq, Repr

/-- Source entry of a Cycle creation request, spec section 3:
source_type, credential_ref and an opaque collect_spec map. -/
structure SourceRequest where
  source_type : String
  credential_ref : String
  collect_spec : List (String × SpecVal)
deriving DecidableEq, Repr, Inhabited

/-- Outcome of a submit handler: either a validation rejection (no backend
call issued) or the payload sent to the backend. -/
inductive SubmitAction (α : Type) where
  | rejected (errMsg : String)
  | sent (payload : α)
deriving DecidableEq

/-- True exactly on the `rejected` constructor. -/
def SubmitAction.isRejected {α : Type} : SubmitAction α → Bool
  | .rejected _ => true
  | .sent _ => false

namespace Orchestration

/-- Modelled from the spec: section 4.3, the Cycle lifecycle states.  The
backend sources are absent from the tree. -/
inductive CycleStatus where
  | pending
  | collecting
  | summarizing
  | completed
  | failed
deriving DecidableEq, Repr

/-- Modelled from the spec: the allowed forward transitions of the Cycle
State Machine (section 4.3).  `completed` and `failed` are terminal. -/
def cycleNext : CycleStatus → List CycleStatus
  | .pending => [.collecting]
  | .collecting => [.summarizing, .failed]
  | .summarizing => [.completed, .failed]
  | .completed => []
  | .failed => []

/-- A status trace: the sequence of statuses a Cycle passes through, starting
at a given status and following only transitions allowed by `cycleNext`. -/
inductive Trace : CycleStatus → List CycleStatus → Prop where
  | single (s : CycleStatus) : Trace s [s]
  | cons {s t : CycleStatus} {l : List CycleStatus}
      (h : t ∈ cycleNext s) (ht : Trace t l) : Trace s (s :: l)

/-- Modelled from the spec: outcome of one Collector Capability invocation
(section 6) — either an item batch with its raw size and wall-clock duration,
or a distinguishable failure (network/auth/timeout/malformed spec). -/
inductive CollectOutcome where
  | success (items : List String) (raw_size_bytes : Nat) (time_ms : Nat)
  | failure (errMsg : String) (time_ms : Nat)
deriving DecidableEq, Repr

/-- Modelled from the spec: the CollectedData record, section 3 — one per
requested source, with `error` set and `item_count = 0` on failure. -/
structure CollectedData where
  source_type : String
  source_name : Option String
  item_count : Nat
  data_size_bytes : Option Nat
  collection_time_ms : Option Nat
  data : List String
  error : Option String
deriving DecidableEq, Repr

/-- Modelled from the spec: conversion of one source's collection outcome into
its CollectedData record (section 4.1).  Failures are converted into a record
with `error` set and `item_count = 0`; duration is recorded regardless of
success or failure. -/
def collectOne (req : SourceRequest) (o : CollectOutcome) : CollectedData :=
  match o with
  | .success items size t =>
      { source_type := req.source_type
        source_name := none
        item_count := items.length
        data_size_bytes := some size
        collection_time_ms := some t
        data := items
        error := none }
  | .failure msg t =>
      { source_type := req.source_type
        source_name := none
        item_count := 0
        data_size_bytes := none
        collection_time_ms := some t
        data := []
        error := some msg }

/-- Modelled from the spec: the Collection Coordinator `run` contract
(section 4.1).  The per-source collector invocations are abstracted by an
oracle mapping the source's input position to its outcome; the result list is
in input order, one record per source. -/
def coordinatorRun (sources : List SourceRequest) (oracle : Nat → CollectOutcome) :
    List CollectedData :=
  (List.range sources.length).map (fun i => collectOne (sources.getD i default) (oracle i))

/-- Modelled from the spec: the fan-out phase with an explicit completion
order — tasks settle in the order given by `order`, each yielding its input
index paired with its CollectedData record. -/
def gather (sources : List SourceRequest) (oracle : Nat → CollectOutcome)
    (order : List Nat) : List (Nat × CollectedData) :=
  order.map (fun i => (i, collectOne (sources.getD i default) (oracle i)))

/-- Modelled from the spec: the fan-in phase — after all tasks settle, the
final list is assembled in input-index order from the completed set. -/
def assemble (n : Nat) (completed : List (Nat × CollectedData)) : List CollectedData :=
  (List.range n).filterMap (fun i => (completed.find? (fun p => p.1 == i)).map Prod.snd)

/-- Modelled from the spec: the Collection Coordinator with an explicit
completion order for its concurrent per-source tasks (section 5). -/
def coordinatorRunSched (sources : List SourceRequest) (oracle : Nat → CollectOutcome)
    (order : List Nat) : List CollectedData :=
  assemble sources.length (gather sources oracle order)

/-- Modelled from the spec: the Summarization Step precondition (section 4.2):
at least one CollectedData entry has `error == null` and `item_count > 0`. -/
def hasUsableData (ds : List CollectedData) : Bool :=
  ds.any (fun d => d.error.isNone && decide (0 < d.item_count))

/-- Modelled from the spec: outcome of the single Summarizer Capability
invocation (section 6): text plus token counts and generation time, or a
failure (provider error, rate limit, malformed response). -/
inductive SummarizerOutcome where
  | success (text : String) (input_tokens output_tokens generation_time_ms : Nat)
  | failure (errMsg : String)
deriving DecidableEq, Repr

/-- True exactly on the `success` constructor. -/
def SummarizerOutcome.isSuccess : SummarizerOutcome → Bool
  | .success _ _ _ _ => true
  | .failure _ => false

/-- Modelled from the spec: one pricing-table row for a model — price per
1000 tokens, input and output separately (section 4.4). -/
structure ModelPrice where
  model : String
  price_in : ℚ
  price_out : ℚ
deriving DecidableEq, Repr

/-- Modelled from the spec: the per-provider block of the static pricing
table (section 4.4). -/
structure ProviderPricing where
  provider : String
  models : List ModelPrice
deriving DecidableEq, Repr

/-- Look up a provider's block in the pricing table. -/
def findProvider : List ProviderPricing → String → Option ProviderPricing
  | [], _ => none
  | pp :: rest, provider => if pp.provider = provider then some pp else findProvider rest provider

/-- Look up a model's price row in a provider block. -/
def findModel : List ModelPrice → String → Option ModelPrice
  | [], _ => none
  | mp :: rest, model => if mp.model = model then some mp else findModel rest model

/-- Modelled from the spec: the Cost Model (section 4.4) — pure table lookup;
an unknown (provider, model) pair returns null rather than raising. -/
def cost (table : List ProviderPricing) (provider model : String)
    (input_tokens output_tokens : Nat) : Option ℚ :=
  match findProvider table provider with
  | none => none
  | some pp =>
      match findModel pp.models model with
      | none => none
      | some mp =>
          some ((input_tokens : ℚ) / 1000 * mp.price_in + (output_tokens : ℚ) / 1000 * mp.price_out)

/-- The (price_in, price_out) entry of a (provider, model) pair of the pricing
table, or none when the pair is absent — the spec-level view of the table. -/
def pairEntry (table : List ProviderPricing) (provider model : String) : Option (ℚ × ℚ) :=
  (findProvider table provider).bind fun pp =>
    (findModel pp.models model).map fun mp => (mp.price_in, mp.price_out)

/-- Word counter used for `summary_word_count`: number of maximal
whitespace-delimited tokens (spec section 4.2). -/
def countWordsAux : List Char → Bool → Nat → Nat
  | [], _, n => n
  | c :: cs, inWord, n =>
      if c.isWhitespace then countWordsAux cs false n
      else if inWord then countWordsAux cs true n
      else countWordsAux cs true (n + 1)

/-- Modelled from the spec: deterministic whitespace-delimited word count of
the summary text (section 4.2). -/
def countWords (text : String) : Nat :=
  countWordsAux text.data false 0

/-- Modelled from the spec: the Summary record, section 3 — at most one per
Cycle. -/
structure Summary where
  llm_provider : String
  model_name : String
  summary_text : String
  input_tokens : Nat
  output_tokens : Nat
  cost_usd : Option ℚ
  generation_time_ms : Nat
  summary_word_count : Nat
deriving DecidableEq, Repr

/-- Result of one end-to-end Cycle run: final status, error message, the
CollectedData rows, the optional Summary, and the status trace followed. -/
structure CycleRunResult where
  status : CycleStatus
  error_message : Option String
  collected : List CollectedData
  summary : Option Summary
  trace : List CycleStatus
deriving DecidableEq, Repr

/-- Modelled from the spec: one end-to-end Cycle run (sections 4.2, 4.3, 4.5).
Collection always runs; if no CollectedData entry is usable the Summarization
Step is skipped and the Cycle fails with "no data collected from any source";
otherwise the single Summarizer invocation decides completed versus failed. -/
def runCycle (sources : List SourceRequest) (oracle : Nat → CollectOutcome)
    (sumr : SummarizerOutcome) (provider model : String)
    (table : List ProviderPricing) : CycleRunResult :=
  let collected := coordinatorRun sources oracle
  if hasUsableData collected then
    match sumr with
    | .success text itok otok gms =>
        { status := .completed
          error_message := none
          collected := collected
          summary := some
            { llm_provider := provider
              model_name := model
              summary_text := text
              input_tokens := itok
              output_tokens := otok
              cost_usd := cost table provider model itok otok
              generation_time_ms := gms
              summary_word_count := countWords text }
          trace := [.pending, .collecting, .summarizing, .completed] }
    | .failure msg =>
        { status := .failed
          error_message := some msg
          collected := collected
          summary := none
          trace := [.pending, .collecting, .summarizing, .failed] }
  else
    { status := .failed
      error_message := some "no data collected from any source"
      collected := collected
      summary := none
      trace := [.pending, .collecting, .failed] }

end Orchestration

namespace APIService

/-- Abstraction of a parsed JSON body, exposing exactly the observations
`request` makes on it: the `detail`, `message` and `errors` fields read on the
error path (collapsed to `Option String`, where `none` stands for an absent or
JS-falsy field and `errors` carries its stringified form), plus the raw body
text.  The success path returns this value opaquely. -/
structure Json where
  detail : Option String
  message : Option String
  errors : Option String
  raw : String
deriving DecidableEq, Repr

/-- What reading the response body yields: a parsed JSON value, a plain text
fallback when JSON parsing fails, or nothing when both reads fail. -/
inductive BodyRead where
  | json (v : Json)
  | text (t : String)
  | unreadable
deriving DecidableEq, Repr

/-- The parts of a fetch Response that `request` inspects. -/
structure HttpResponse where
  ok : Bool
  status : Nat
  statusText : String
  body : BodyRead
deriving DecidableEq, Repr

/-- The error detail string `request` builds for a non-ok response
(src/frontend/src/api/apiService.js lines 23-43): backend `detail` or
`message` field if present, with stringified `errors` appended, falling back
to the body text, falling back to "HTTP status: statusText". -/
def errorDetailOf (r : HttpResponse) : String :=
  let base := "HTTP " ++ toString r.status ++ ": " ++ r.statusText
  match r.body with
  | .json v =>
      let d := v.detail.getD (v.message.getD base)
      match v.errors with
      | some e => d ++ "\n\n" ++ e
      | none => d
  | .text t => if t = "" then base else t
  | .unreadable => base

/-- Outcome of the `fetch` call itself: a network-level rejection (a JS
TypeError with a message) or an HTTP response. -/
inductive FetchOutcome where
  | networkFailure (msg : String)
  | success (r : HttpResponse)
deriving DecidableEq, Repr

/-- The message substituted for the browser's bare network error
(apiService.js line 57). -/
def connectionErrorText : String :=
  "Cannot connect to backend server. Ensure it is running on port 8001."

/-- Stand-in for the JSON parser's exception message when an ok response body
is not valid JSON (the SyntaxError from `response.json()` is rethrown). -/
def jsonParseErrorText : String := "Unexpected end of JSON input"

/-- Shallow embedding of `APIService.request`
(src/frontend/src/api/apiService.js lines 10-62): non-ok responses and
network/parse failures throw (modelled as `.error`), a 204 returns null
(modelled as `.ok none`), any other ok response returns its parsed JSON
body. -/
def request (f : FetchOutcome) : Except String (Option Json) :=
  match f with
  | .networkFailure msg =>
      .error (if msg = "Failed to fetch" then connectionErrorText else msg)
  | .success r =>
      if !r.ok then .error (errorDetailOf r)
      else if r.status = 204 then .ok none
      else
        match r.body with
        | .json v => .ok (some v)
        | _ => .error jsonParseErrorText

end APIService

namespace CycleCreateDialog

/-- One entry of the timeframe Select
(src/frontend/src/components/CycleCreateDialog.js lines 25-29). -/
structure TimeframeOption where
  value : Nat
  label : String
deriving DecidableEq, Repr

/-- The timeframe options offered by the dialog (lines 25-29). -/
def TIMEFRAME_OPTIONS : List TimeframeOption :=
  [⟨1, "1 Day"⟩, ⟨3, "3 Days"⟩, ⟨7, "7 Days (Max)"⟩]

/-- One value/label entry of a Select control. -/
structure SelectOption where
  value : String
  label : String
deriving DecidableEq, Repr

/-- The LLM providers offered by the dialog (lines 31-34). -/
def LLM_PROVIDERS : List SelectOption :=
  [⟨"openai", "OpenAI"⟩, ⟨"anthropic", "Anthropic (Claude)"⟩]

/-- The models offered per provider (lines 36-45); an unknown provider key
yields no options, as JS object indexing would. -/
def LLM_MODELS (provider : String) : List SelectOption :=
  if provider = "openai" then
    [⟨"gpt-4o-mini", "GPT-4o Mini (Fast & Cheap)"⟩, ⟨"gpt-4o", "GPT-4o (Best Quality)"⟩]
  else if provider = "anthropic" then
    [⟨"claude-3-5-sonnet-20241022", "Claude 3.5 Sonnet"⟩,
     ⟨"claude-3-haiku-20240307", "Claude 3 Haiku (Fast)"⟩]
  else []

/-- A reusable source-configuration record as listed by the backend and
toggled in the dialog. -/
structure SourceConfig where
  id : Nat
  name : String
  source_type : String
  credential_ref : String
  collect_spec : List (String × SpecVal)
deriving DecidableEq, Repr

/-- The dialog's form fields (useState initial values, lines 48-53). -/
structure FormData where
  name : String
  timeframe_days : Nat
  llm_provider : String
  llm_model : String
deriving DecidableEq, Repr

/-- The dialog's state: the form plus the toggled source configurations. -/
structure DialogState where
  formData : FormData
  selectedConfigs : List SourceConfig
deriving DecidableEq, Repr

/-- The dialog's initial state (lines 48-55), also restored by handleClose. -/
def initialState : DialogState :=
  { formData := { name := "", timeframe_days := 1, llm_provider := "openai",
                  llm_model := "gpt-4o-mini" }
    selectedConfigs := [] }

/-- Shallow embedding of `handleConfigToggle` (lines 92-99): deselect all
entries with the config's id if present, else append the config. -/
def handleConfigToggle (selected : List SourceConfig) (config : SourceConfig) :
    List SourceConfig :=
  if selected.any (fun c => c.id == config.id) then
    selected.filter (fun c => c.id != config.id)
  else
    selected ++ [config]

/-- The cycle-creation payload the dialog posts (lines 116-126); it carries no
custom_prompt field. -/
structure CyclePayload where
  name : String
  timeframe_days : Nat
  sources : List SourceRequest
  llm_provider : String
  llm_model : String
deriving DecidableEq, Repr

/-- Shallow embedding of the dialog's `handleSubmit` (lines 101-136): an empty
trimmed name or an empty selection is rejected with a validation message
before `apiService.createCycle` is called; otherwise the payload is built from
the form and the selected configs, in selection order. -/
def handleSubmit (d : DialogState) : SubmitAction CyclePayload :=
  if jsTrim d.formData.name = "" then
    .rejected "Please enter a cycle name"
  else if d.selectedConfigs.length = 0 then
    .rejected "Please select at least one source configuration"
  else
    .sent
      { name := d.formData.name
        timeframe_days := d.formData.timeframe_days
        sources := d.selectedConfigs.map (fun c =>
          { source_type := c.source_type
            credential_ref := c.credential_ref
            collect_spec := c.collect_spec })
        llm_provider := d.formData.llm_provider
        llm_model := d.formData.llm_model }

/-- The UI events that mutate the dialog state, guarded by what the rendered
controls allow: Select fields only offer their listed options
(handleFieldChange, lines 79-90; handleConfigToggle, lines 92-99; handleClose,
lines 138-148). -/
inductive DialogStep : DialogState → DialogState → Prop where
  | setName (d : DialogState) (v : String) :
      DialogStep d { d with formData := { d.formData with name := v } }
  | setTimeframe (d : DialogState) (v : Nat)
      (hv : v ∈ TIMEFRAME_OPTIONS.map TimeframeOption.value) :
      DialogStep d { d with formData := { d.formData with timeframe_days := v } }
  | setProvider (d : DialogState) (p : String)
      (hp : p ∈ LLM_PROVIDERS.map SelectOption.value) :
      DialogStep d { d with formData :=
        { d.formData with
          llm_provider := p
          llm_model := ((LLM_MODELS p).headD ⟨"", ""⟩).value } }
  | setModel (d : DialogState) (m : String)
      (hm : m ∈ (LLM_MODELS d.formData.llm_provider).map SelectOption.value) :
      DialogStep d { d with formData := { d.formData with llm_model := m } }
  | toggleConfig (d : DialogState) (c : SourceConfig) :
      DialogStep d { d with selectedConfigs := handleConfigToggle d.selectedConfigs c }
  | close (d : DialogState) :
      DialogStep d initialState

/-- Dialog states reachable from the initial state through UI events. -/
inductive DialogReachable : DialogState → Prop where
  | init : DialogReachable initialState
  | step {d d2 : DialogState} (h : DialogReachable d) (hs : DialogStep d d2) :
      DialogReachable d2

end CycleCreateDialog

namespace DigestWizard

/-- One entry of the source-type grid
(src/frontend/src/components/DigestWizard.js lines 50-57); the icon component
is presentational and omitted. -/
structure SourceTypeEntry where
  id : String
  label : String
deriving DecidableEq, Repr

/-- The source platforms offered at the Sources step (lines 50-57). -/
def SOURCE_TYPES : List SourceTypeEntry :=
  [⟨"telegram", "Telegram"⟩, ⟨"youtube", "YouTube"⟩, ⟨"twitter", "Twitter / X"⟩,
   ⟨"reddit", "Reddit"⟩, ⟨"gnews", "Google News"⟩, ⟨"pytrends", "Google Trends"⟩]

/-- The ids of the offered source platforms. -/
def sourceTypeIds : List String :=
  SOURCE_TYPES.map SourceTypeEntry.id

/-- One value/label entry of a Select control. -/
structure SelectOption where
  value : String
  label : String
deriving DecidableEq, Repr

/-- The models offered per provider (lines 61-74); an unknown provider key
yields no options, as JS object indexing would. -/
def LLM_MODELS (provider : String) : List SelectOption :=
  if provider = "openai" then
    [⟨"gpt-4o-mini", "GPT-4o Mini (Fast & Cheap)"⟩, ⟨"gpt-4o", "GPT-4o (Best Quality)"⟩]
  else if provider = "anthropic" then
    [⟨"claude-3-5-sonnet-20241022", "Claude 3.5 Sonnet"⟩,
     ⟨"claude-3-haiku-20240307", "Claude 3 Haiku"⟩]
  else if provider = "xai" then
    [⟨"grok-beta", "Grok Beta"⟩, ⟨"grok-vision-beta", "Grok Vision Beta"⟩]
  else []

/-- The provider values offered by the Provider Select at the Schedule step
(lines 693-695). -/
def providerIds : List String := ["openai", "anthropic", "xai"]

/-- The timeframe values offered by the Time Period Select at the Schedule
step (lines 666-668): Last 24 Hours, Last 3 Days, Last Week. -/
def timeframeMenuValues : List Nat := [1, 3, 7]

/-- The built-in default summarization prompt (lines 76-91), verbatim. -/
def DEFAULT_PROMPT : String :=
  "You are an expert content summarization assistant. Your task is to analyze and summarize content from various sources (social media, news, videos, etc.) in a clear, concise, and insightful manner.

Guidelines:
1. Identify and highlight key themes, trends, and insights
2. Organize information logically by topic or theme
3. Use clear, professional language
4. Include relevant quotes or data points when significant
5. Provide context for technical or domain-specific content
6. Note any emerging patterns or anomalies
7. Keep the summary focused on actionable insights

Format your summary with:
- Executive Summary (2-3 sentences)
- Key Themes (bulleted list with details)
- Notable Items (specific posts/videos/articles worth highlighting)
- Trends & Insights (patterns observed across sources)"

/-- The wizard's component state (useState initial values, lines 94-104). -/
structure WizardState where
  activeStep : Nat
  digestName : String
  selectedSources : List String
  sourceConfigs : List (String × List (String × SpecVal))
  timeframeDays : Nat
  runMode : String
  llmProvider : String
  llmModel : String
  customPrompt : String
  error : Option String
deriving DecidableEq, Repr

/-- The wizard's initial state (lines 94-104), also restored by
handleReset. -/
def initialState : WizardState :=
  { activeStep := 0
    digestName := ""
    selectedSources := []
    sourceConfigs := []
    timeframeDays := 1
    runMode := "now"
    llmProvider := "openai"
    llmModel := "gpt-4o-mini"
    customPrompt := DEFAULT_PROMPT
    error := none }

/-- Shallow embedding of `handleNext` (lines 106-117): an empty trimmed name
at the Name step or an empty selection at the Sources step sets a validation
error and stays on the step; otherwise the error is cleared and the step
advances. -/
def handleNext (s : WizardState) : WizardState :=
  if s.activeStep = 0 ∧ jsTrim s.digestName = "" then
    { s with error := some "Please enter a digest name" }
  else if s.activeStep = 1 ∧ s.selectedSources = [] then
    { s with error := some "Please select at least one source" }
  else
    { s with error := none, activeStep := s.activeStep + 1 }

/-- Shallow embedding of `handleBack` (lines 119-122). -/
def handleBack (s : WizardState) : WizardState :=
  { s with error := none, activeStep := s.activeStep - 1 }

/-- Shallow embedding of `getDefaultConfig` (lines 139-149). -/
def getDefaultConfig (sourceType : String) : List (String × SpecVal) :=
  if sourceType = "reddit" then
    [("subreddits", .strList []), ("max_posts", .nat 50), ("sort", .str "hot"),
     ("credential_ref", .str "REDDIT_CLIENT_1")]
  else if sourceType = "youtube" then
    [("channels", .strList []), ("max_videos", .nat 10),
     ("credential_ref", .str "YOUTUBE_CLIENT_1")]
  else if sourceType = "telegram" then
    [("channels", .strList []), ("max_messages", .nat 200),
     ("credential_ref", .str "TELEGRAM_CLIENT_1")]
  else if sourceType = "twitter" then
    [("query", .str ""), ("max_results", .nat 100),
     ("credential_ref", .str "TWITTER_CLIENT_1")]
  else if sourceType = "gnews" then
    [("query", .str ""), ("language", .str "en"), ("max_results", .nat 10),
     ("credential_ref", .str "GNEWS_CLIENT_1")]
  else if sourceType = "pytrends" then
    [("keywords", .strList []), ("geo", .str ""), ("credential_ref", .str "PYTRENDS")]
  else []

/-- Shallow embedding of `handleSourceToggle` (lines 124-137): deselect the
source and drop its config entry, or append it with its default config. -/
def handleSourceToggle (s : WizardState) (sourceId : String) : WizardState :=
  if sourceId ∈ s.selectedSources then
    { s with
      selectedSources := s.selectedSources.filter (fun x => x != sourceId)
      sourceConfigs := s.sourceConfigs.filter (fun p => p.1 != sourceId) }
  else
    { s with
      selectedSources := s.selectedSources ++ [sourceId]
      sourceConfigs := s.sourceConfigs ++ [(sourceId, getDefaultConfig sourceId)] }

/-- Set or add one key of a collect-spec map, as the JS object spread
`\x7b...cfg, [field]: value\x7d` does: overwrite in place if the key exists,
append otherwise. -/
def setSpecField (cfg : List (String × SpecVal)) (field : String) (v : SpecVal) :
    List (String × SpecVal) :=
  if cfg.any (fun p => p.1 == field) then
    cfg.map (fun p => if p.1 == field then (p.1, v) else p)
  else
    cfg ++ [(field, v)]

/-- Shallow embedding of `handleConfigChange` (lines 151-159): update one
field of one selected source's config. -/
def handleConfigChange (s : WizardState) (sourceId field : String) (v : SpecVal) :
    WizardState :=
  { s with
    sourceConfigs := s.sourceConfigs.map (fun p =>
      if p.1 == sourceId then (p.1, setSpecField p.2 field v) else p) }

/-- The config currently stored for a source id (JS `sourceConfigs[sourceId]`;
an absent key would be undefined, modelled as the empty map — handleSubmit
only reads ids in selectedSources, which always have an entry). -/
def lookupConfig (s : WizardState) (sourceId : String) : List (String × SpecVal) :=
  ((s.sourceConfigs.find? (fun p => p.1 == sourceId)).map Prod.snd).getD []

/-- The credential_ref field read out of a config map
(JS `sourceConfigs[sourceId].credential_ref`). -/
def credentialRefOf (cfg : List (String × SpecVal)) : String :=
  match cfg.find? (fun p => p.1 == "credential_ref") with
  | some (_, .str v) => v
  | _ => ""

/-- The cycle-creation payload the wizard posts (lines 166-177), including the
custom_prompt field, null when the prompt was left at the default. -/
structure CyclePayload where
  name : String
  timeframe_days : Nat
  sources : List SourceRequest
  llm_provider : String
  llm_model : String
  custom_prompt : Option String
deriving DecidableEq, Repr

/-- Shallow embedding of the wizard's `handleSubmit` payload construction
(lines 161-198): the payload is built from the wizard state with no further
validation — `apiService.createCycle` is always called at the Review step —
and custom_prompt is the edited prompt, or null when it equals
DEFAULT_PROMPT. -/
def handleSubmit (s : WizardState) : CyclePayload :=
  { name := s.digestName
    timeframe_days := s.timeframeDays
    sources := s.selectedSources.map (fun sourceId =>
      { source_type := sourceId
        credential_ref := credentialRefOf (lookupConfig s sourceId)
        collect_spec := lookupConfig s sourceId })
    llm_provider := s.llmProvider
    llm_model := s.llmModel
    custom_prompt := if s.customPrompt = DEFAULT_PROMPT then none else some s.customPrompt }

/-- The UI events that mutate the wizard state, guarded by what the rendered
step shows (renderStepContent, lines 212-812): the name field exists only at
step 0, the source grid only at step 1, the per-source config fields only at
step 2, the schedule/model/prompt controls only at step 3; Next is rendered
while activeStep < 4 and Back while activeStep > 0; Selects only offer their
listed options, and the scheduling radio offers only "now" (the other option
is disabled).  Cancel (handleReset) restores the initial state. -/
inductive WStep : WizardState → WizardState → Prop where
  | setName (s : WizardState) (v : String) (h : s.activeStep = 0) :
      WStep s { s with digestName := v }
  | next (s : WizardState) (h : s.activeStep < 4) :
      WStep s (handleNext s)
  | back (s : WizardState) (h : 0 < s.activeStep) :
      WStep s (handleBack s)
  | toggleSource (s : WizardState) (sourceId : String) (h : s.activeStep = 1)
      (hid : sourceId ∈ sourceTypeIds) :
      WStep s (handleSourceToggle s sourceId)
  | configChange (s : WizardState) (sourceId field : String) (v : SpecVal)
      (h : s.activeStep = 2) :
      WStep s (handleConfigChange s sourceId field v)
  | setTimeframe (s : WizardState) (n : Nat) (h : s.activeStep = 3)
      (hn : n ∈ timeframeMenuValues) :
      WStep s { s with timeframeDays := n }
  | setRunMode (s : WizardState) (m : String) (h : s.activeStep = 3)
      (hm : m ∈ ["now"]) :
      WStep s { s with runMode := m }
  | setProvider (s : WizardState) (p : String) (h : s.activeStep = 3)
      (hp : p ∈ providerIds) :
      WStep s
        { s with
          llmProvider := p
          llmModel := ((LLM_MODELS p).headD ⟨"", ""⟩).value }
  | setModel (s : WizardState) (m : String) (h : s.activeStep = 3)
      (hm : m ∈ (LLM_MODELS s.llmProvider).map SelectOption.value) :
      WStep s { s with llmModel := m }
  | setPrompt (s : WizardState) (v : String) (h : s.activeStep = 3) :
      WStep s { s with customPrompt := v }
  | reset (s : WizardState) :
      WStep s initialState

/-- Wizard states reachable from the initial state through UI events. -/
inductive WReachable : WizardState → Prop where
  | init : WReachable initialState
  | step {s s2 : WizardState} (h : WReachable s) (hs : WStep s s2) :
      WReachable s2

end DigestWizard

namespace Orchestration

/-- A concrete two-source request list used to exercise the coordinator. -/
def twoSources : List SourceRequest :=
  [{ source_type := "reddit", credential_ref := "REDDIT_CLIENT_1",
     collect_spec := [("subreddits", .strList ["python"])] },
   { source_type := "reddit", credential_ref := "REDDIT_BAD",
     collect_spec := [("subreddits", .strList ["lean"])] }]

/-- A collector oracle where every source succeeds with one item. -/
def oracleAllOk : Nat → CollectOutcome :=
  fun _ => .success ["item"] 42 10

/-- A collector oracle where source 1 fails with an auth error and every
other source succeeds with one item. -/
def oracleOneFail : Nat → CollectOutcome :=
  fun j => if j = 1 then .failure "auth error" 7 else .success ["item"] 42 10

/-- A collector oracle where every source fails. -/
def oracleAllFail : Nat → CollectOutcome :=
  fun _ => .failure "network error" 3

/-- A sample pricing table used to exercise the Cost Model (the spec fixes
the table's shape, not its entries). -/
def sampleTable : List ProviderPricing :=
  [{ provider := "openai",
     models := [{ model := "gpt-4o-mini", price_in := 3/20000, price_out := 3/5000 },
                { model := "gpt-4o", price_in := 1/400, price_out := 1/100 }] },
   { provider := "anthropic",
     models := [{ model := "claude-3-5-sonnet-20241022", price_in := 3/1000, price_out := 3/200 }] }]

end Orchestration

namespace APIService

/-- A concrete parsed JSON body standing for a successful response payload. -/
def sampleJson : Json :=
  { detail := none, message := none, errors := none, raw := "[]" }

/-- A concrete non-ok response carrying a backend validation error body. -/
def respErr : HttpResponse :=
  { ok := false, status := 422, statusText := "Unprocessable Entity",
    body := .json { detail := some "Invalid request", message := none, errors := none,
                    raw := "" } }

/-- A concrete 204 No Content response. -/
def resp204 : HttpResponse :=
  { ok := true, status := 204, statusText := "No Content", body := .unreadable }

/-- A concrete ok response with a JSON body. -/
def respOkJson : HttpResponse :=
  { ok := true, status := 200, statusText := "OK", body := .json sampleJson }

end APIService

namespace CycleCreateDialog

/-- A concrete source configuration as returned by the backend config list. -/
def cfg0 : SourceConfig :=
  { id := 5, name := "My Reddit", source_type := "reddit",
    credential_ref := "REDDIT_CLIENT_1",
    collect_spec := [("subreddits", .strList ["python"])] }

/-- Dialog state after opening the dialog. -/
def dialog0 : DialogState := initialState

/-- Dialog state after typing a cycle name. -/
def dialog1 : DialogState :=
  { dialog0 with formData := { dialog0.formData with name := "Tech Weekly" } }

/-- Dialog state after picking the 3-day timeframe. -/
def dialog2 : DialogState :=
  { dialog1 with formData := { dialog1.formData with timeframe_days := 3 } }

/-- Dialog state after toggling one source configuration on. -/
def dialog3 : DialogState :=
  { dialog2 with selectedConfigs := handleConfigToggle dialog2.selectedConfigs cfg0 }

/-- The payload `handleSubmit` builds from `dialog3`. -/
def payload3 : CyclePayload :=
  { name := "Tech Weekly", timeframe_days := 3,
    sources := [{ source_type := "reddit", credential_ref := "REDDIT_CLIENT_1",
                  collect_spec := [("subreddits", .strList ["python"])] }],
    llm_provider := "openai", llm_model := "gpt-4o-mini" }

end CycleCreateDialog

namespace DigestWizard

/-- Wizard state after opening the wizard. -/
def wiz0 : WizardState := initialState

/-- Wizard state after typing a digest name at the Name step. -/
def wiz1 : WizardState := { wiz0 with digestName := "Tech Daily" }

/-- Wizard state after Next from the Name step. -/
def wiz2 : WizardState := handleNext wiz1

/-- Wizard state after toggling the reddit source on at the Sources step. -/
def wiz3 : WizardState := handleSourceToggle wiz2 "reddit"

/-- Wizard state after Next from the Sources step. -/
def wiz4 : WizardState := handleNext wiz3

/-- Wizard state after Next from the Configure step. -/
def wiz5 : WizardState := handleNext wiz4

/-- Wizard state after Next from the Schedule step: the Review step, where
the submit button is rendered. -/
def wiz6 : WizardState := handleNext wiz5

/-- A wizard state whose prompt was edited away from the default. -/
def wizEdited : WizardState := { wiz6 with customPrompt := "Summarize briefly." }

end DigestWizard

namespace Orchestration

theorem coordinatorRun_length (sources : List SourceRequest) (oracle : Nat → CollectOutcome) :
    (coordinatorRun sources oracle).length = sources.length := by
  simp [coordinatorRun]

theorem coordinatorRun_getElem_lt (sources : List SourceRequest)
    (oracle : Nat → CollectOutcome) (i : Nat) (hi : i < sources.length) :
    (coordinatorRun sources oracle)[i]? =
      some (collectOne (sources.getD i default) (oracle i)) := by
  simp [coordinatorRun, List.getElem?_map, List.getElem?_range, hi]

theorem coordinatorRun_getElem_ge (sources : List SourceRequest)
    (oracle : Nat → CollectOutcome) (i : Nat) (hi : sources.length ≤ i) :
    (coordinatorRun sources oracle)[i]? = none := by
  apply List.getElem?_eq_none
  simpa [coordinatorRun] using hi

end Orchestration

open Orchestration in
/-- C1: for every run of the Collection Coordinator over a non-empty source
list, a failure of any single source i (network error, auth error, malformed
spec, or timeout) is recorded as a CollectedData record with `error` set and
`item_count = 0` for that source only, and does not abort (the result still
has one record per source) or alter the collection of any sibling source
(every other position's record is the same as in a run whose oracle agrees
everywhere except at i). -/
theorem c1_per_source_failure_isolation (sources : List SourceRequest)
    (o1 o2 : Nat → CollectOutcome) (i : Nat) (hi : i < sources.length)
    (e : String) (t : Nat) (hfail : o2 i = .failure e t)
    (hagree : ∀ j, j ≠ i → o1 j = o2 j) :
    (coordinatorRun sources o2).length = sources.length
    ∧ ((coordinatorRun sources o2)[i]?).map CollectedData.error = some (some e)
    ∧ ((coordinatorRun sources o2)[i]?).map CollectedData.item_count = some 0
    ∧ ∀ j, j ≠ i → (coordinatorRun sources o2)[j]? = (coordinatorRun sources o1)[j]? := by
  refine ⟨coordinatorRun_length sources o2, ?_, ?_, ?_⟩
  · rw [coordinatorRun_getElem_lt sources o2 i hi, hfail]
    simp [collectOne]
  · rw [coordinatorRun_getElem_lt sources o2 i hi, hfail]
    simp [collectOne]
  · intro j hj
    rcases Nat.lt_or_ge j sources.length with hlt | hge
    · rw [coordinatorRun_getElem_lt sources o2 j hlt,
        coordinatorRun_getElem_lt sources o1 j hlt, hagree j hj]
    · rw [coordinatorRun_getElem_ge sources o2 j hge,
        coordinatorRun_getElem_ge sources o1 j hge]

open Orchestration in
/-- C1 witness: with two reddit sources where source 1 fails with an auth
error, the run still yields two records, the failing source's record has the
error set and zero items, and position 0 matches the all-success run. -/
theorem c1_per_source_failure_isolation_witness :
    (coordinatorRun twoSources oracleOneFail).length = 2
    ∧ ((coordinatorRun twoSources oracleOneFail)[1]?).map CollectedData.error
        = some (some "auth error")
    ∧ ((coordinatorRun twoSources oracleOneFail)[1]?).map CollectedData.item_count = some 0
    ∧ (coordinatorRun twoSources oracleOneFail)[0]?
        = (coordinatorRun twoSources oracleAllOk)[0]? := by
  have h := c1_per_source_failure_isolation twoSources oracleAllOk oracleOneFail 1
    (by decide) "auth error" 7 rfl
    (by intro j hj; simp [oracleAllOk, oracleOneFail, hj])
  exact ⟨h.1.trans rfl, h.2.1, h.2.2.1, h.2.2.2 0 (by decide)⟩

open Orchestration in
/-- C3: for every Cycle run over a list of requested sources, the number of
CollectedData records produced equals the number of requested sources —
exactly one record per source, whether that source succeeded or failed. -/
theorem c3_one_record_per_source (sources : List SourceRequest)
    (oracle : Nat → CollectOutcome) (sumr : SummarizerOutcome)
    (provider model : String) (table : List ProviderPricing) :
    (runCycle sources oracle sumr provider model table).collected.length
      = sources.length := by
  unfold runCycle
  by_cases h : hasUsableData (coordinatorRun sources oracle) = true
  · rw [if_pos h]
    cases sumr <;> simp [coordinatorRun_length]
  · rw [if_neg h]
    simp [coordinatorRun_length]

namespace Orchestration

theorem find?_gather (sources : List SourceRequest) (oracle : Nat → CollectOutcome)
    (i : Nat) (order : List Nat) (h : i ∈ order) :
    (gather sources oracle order).find? (fun p => p.1 == i)
      = some (i, collectOne (sources.getD i default) (oracle i)) := by
  induction order with
  | nil => cases h
  | cons a rest ih =>
      rw [gather, List.map_cons]
      by_cases hai : a = i
      · subst hai
        exact List.find?_cons_of_pos _ (by simp)
      · rw [List.find?_cons_of_neg _ (by simp [hai])]
        rcases List.mem_cons.mp h with h1 | h2
        · exact absurd h1.symm hai
        · exact ih h2

theorem filterMap_congr_some {α β : Type} (g : α → Option β) (f : α → β) :
    ∀ l : List α, (∀ a ∈ l, g a = some (f a)) → l.filterMap g = l.map f
  | [], _ => rfl
  | a :: l, h => by
      rw [List.filterMap_cons, h a (by simp), List.map_cons,
        filterMap_congr_some g f l (fun x hx => h x (by simp [hx]))]

end Orchestration

open Orchestration in
/-- C4: for every run of the Collection Coordinator, the final CollectedData
list is ordered identically to the input SourceRequest list, regardless of
the order in which the individual collectors finish: for any completion order
that is a permutation of the task indices, the assembled result equals the
input-ordered run. -/
theorem c4_output_order_matches_input (sources : List SourceRequest)
    (oracle : Nat → CollectOutcome) (order : List Nat)
    (hperm : order.Perm (List.range sources.length)) :
    coordinatorRunSched sources oracle order = coordinatorRun sources oracle := by
  unfold coordinatorRunSched assemble coordinatorRun
  apply filterMap_congr_some
  intro i hi
  rw [find?_gather sources oracle i order (hperm.mem_iff.mpr hi)]
  rfl

open Orchestration in
/-- C4 witness: with two sources where the second (fast) task finishes before
the first (slow, failing) one, the assembled result still equals the
input-ordered run. -/
theorem c4_output_order_matches_input_witness :
    coordinatorRunSched twoSources oracleOneFail [1, 0]
      = coordinatorRun twoSources oracleOneFail :=
  c4_output_order_matches_input twoSources oracleOneFail [1, 0] (by decide)

namespace Orchestration

theorem trace_of_terminal {s : CycleStatus} {l : List CycleStatus}
    (h : Trace s l) (hterm : cycleNext s = []) : l = [s] := by
  cases h with
  | single => rfl
  | cons hmem ht => rw [hterm] at hmem; cases hmem

theorem trace_of_summarizing {l : List CycleStatus} (h : Trace .summarizing l) :
    l = [.summarizing] ∨ l = [.summarizing, .completed]
      ∨ l = [.summarizing, .failed] := by
  cases h with
  | single => exact Or.inl rfl
  | cons hmem ht =>
      rename_i t l2
      have hc : t = CycleStatus.completed ∨ t = CycleStatus.failed := by
        simpa [cycleNext] using hmem
      rcases hc with hc | hc <;> subst hc
      · rw [trace_of_terminal ht rfl]
        exact Or.inr (Or.inl rfl)
      · rw [trace_of_terminal ht rfl]
        exact Or.inr (Or.inr rfl)

theorem trace_of_collecting {l : List CycleStatus} (h : Trace .collecting l) :
    l = [.collecting] ∨ l = [.collecting, .failed]
      ∨ l = [.collecting, .summarizing]
      ∨ l = [.collecting, .summarizing, .completed]
      ∨ l = [.collecting, .summarizing, .failed] := by
  cases h with
  | single => exact Or.inl rfl
  | cons hmem ht =>
      rename_i t l2
      have hc : t = CycleStatus.summarizing ∨ t = CycleStatus.failed := by
        simpa [cycleNext] using hmem
      rcases hc with hc | hc <;> subst hc
      · rcases trace_of_summarizing ht with h1 | h1 | h1 <;> rw [h1]
        · exact Or.inr (Or.inr (Or.inl rfl))
        · exact Or.inr (Or.inr (Or.inr (Or.inl rfl)))
        · exact Or.inr (Or.inr (Or.inr (Or.inr rfl)))
      · rw [trace_of_terminal ht rfl]
        exact Or.inr (Or.inl rfl)

theorem trace_of_pending {l : List CycleStatus} (h : Trace .pending l) :
    l = [.pending] ∨ l = [.pending, .collecting]
      ∨ l = [.pending, .collecting, .failed]
      ∨ l = [.pending, .collecting, .summarizing]
      ∨ l = [.pending, .collecting, .summarizing, .completed]
      ∨ l = [.pending, .collecting, .summarizing, .failed] := by
  cases h with
  | single => exact Or.inl rfl
  | cons hmem ht =>
      rename_i t l2
      have hc : t = CycleStatus.collecting := by simpa [cycleNext] using hmem
      subst hc
      rcases trace_of_collecting ht with h1 | h1 | h1 | h1 | h1 <;> rw [h1]
      · exact Or.inr (Or.inl rfl)
      · exact Or.inr (Or.inr (Or.inl rfl))
      · exact Or.inr (Or.inr (Or.inr (Or.inl rfl)))
      · exact Or.inr (Or.inr (Or.inr (Or.inr (Or.inl rfl))))
      · exact Or.inr (Or.inr (Or.inr (Or.inr (Or.inr rfl))))

end Orchestration

open Orchestration in
/-- C2: every status trace of a Cycle from `pending` follows exactly one of
the sequences pending→collecting→summarizing→completed,
pending→collecting→failed, or pending→collecting→summarizing→failed (it is a
prefix of one of them; proper prefixes are runs still in flight or cut off),
no other status sequence is reachable, and the terminal statuses `completed`
and `failed` allow no outgoing transition. -/
theorem c2_status_moves_only_forward (l : List CycleStatus) (h : Trace .pending l) :
    (l <+: [.pending, .collecting, .summarizing, .completed]
      ∨ l <+: [.pending, .collecting, .failed]
      ∨ l <+: [.pending, .collecting, .summarizing, .failed])
    ∧ cycleNext .completed = [] ∧ cycleNext .failed = [] := by
  refine ⟨?_, rfl, rfl⟩
  rcases trace_of_pending h with h1 | h1 | h1 | h1 | h1 | h1 <;> subst h1
  · exact Or.inl ⟨[.collecting, .summarizing, .completed], rfl⟩
  · exact Or.inl ⟨[.summarizing, .completed], rfl⟩
  · exact Or.inr (Or.inl ⟨[], rfl⟩)
  · exact Or.inl ⟨[.completed], rfl⟩
  · exact Or.inl ⟨[], rfl⟩
  · exact Or.inr (Or.inr ⟨[], rfl⟩)

open Orchestration in
/-- C2 witness: the successful full trace
pending→collecting→summarizing→completed is a valid trace and the theorem
applies to it. -/
theorem c2_status_moves_only_forward_witness :
    ([CycleStatus.pending, .collecting, .summarizing, .completed]
        <+: [CycleStatus.pending, .collecting, .summarizing, .completed]
      ∨ [CycleStatus.pending, .collecting, .summarizing, .completed]
        <+: [CycleStatus.pending, .collecting, .failed]
      ∨ [CycleStatus.pending, .collecting, .summarizing, .completed]
        <+: [CycleStatus.pending, .collecting, .summarizing, .failed])
    ∧ cycleNext .completed = [] ∧ cycleNext .failed = [] :=
  c2_status_moves_only_forward _
    (.cons (by decide) (.cons (by decide) (.cons (by decide) (.single _))))

open Orchestration in
/-- C5: for every Cycle, if at least one CollectedData record has
`error == null` and `item_count > 0`, the Summarization Step runs (the trace
passes through `summarizing`) and a Summary record exists iff the Summarizer
Capability succeeds (success also completes the Cycle, failure fails it); if
no such record exists, the Summarization Step is skipped (the trace never
reaches `summarizing`), the Cycle ends with status `failed`, and no Summary
exists. -/
theorem c5_summarization_gating (sources : List SourceRequest)
    (oracle : Nat → CollectOutcome) (sumr : SummarizerOutcome)
    (provider model : String) (table : List ProviderPricing) :
    (hasUsableData (coordinatorRun sources oracle) = true →
      CycleStatus.summarizing ∈ (runCycle sources oracle sumr provider model table).trace
      ∧ ((runCycle sources oracle sumr provider model table).summary.isSome
          = sumr.isSuccess)
      ∧ (sumr.isSuccess = true →
          (runCycle sources oracle sumr provider model table).status = .completed)
      ∧ (sumr.isSuccess = false →
          (runCycle sources oracle sumr provider model table).status = .failed))
    ∧ (hasUsableData (coordinatorRun sources oracle) = false →
      CycleStatus.summarizing ∉ (runCycle sources oracle sumr provider model table).trace
      ∧ (runCycle sources oracle sumr provider model table).status = .failed
      ∧ (runCycle sources oracle sumr provider model table).summary = none
      ∧ (runCycle sources oracle sumr provider model table).error_message
          = some "no data collected from any source") := by
  constructor
  · intro h
    unfold runCycle
    rw [if_pos h]
    cases sumr <;> simp [SummarizerOutcome.isSuccess]
  · intro h
    unfold runCycle
    rw [if_neg (by simp [h])]
    simp

open Orchestration in
/-- C5 witness: with a succeeding source and a succeeding summarizer the
Summary exists and the Cycle completes; with all sources failing the
summarizing phase is skipped, the Cycle fails and no Summary exists. -/
theorem c5_summarization_gating_witness :
    ((runCycle twoSources oracleOneFail (.success "alpha beta" 10 5 100)
        "openai" "gpt-4o-mini" sampleTable).summary.isSome = true
      ∧ (runCycle twoSources oracleOneFail (.success "alpha beta" 10 5 100)
          "openai" "gpt-4o-mini" sampleTable).status = .completed)
    ∧ ((runCycle twoSources oracleAllFail (.success "alpha beta" 10 5 100)
          "openai" "gpt-4o-mini" sampleTable).status = .failed
      ∧ (runCycle twoSources oracleAllFail (.success "alpha beta" 10 5 100)
          "openai" "gpt-4o-mini" sampleTable).summary = none) := by
  have h1 := (c5_summarization_gating twoSources oracleOneFail
    (.success "alpha beta" 10 5 100) "openai" "gpt-4o-mini" sampleTable).1 (by decide)
  have h2 := (c5_summarization_gating twoSources oracleAllFail
    (.success "alpha beta" 10 5 100) "openai" "gpt-4o-mini" sampleTable).2 (by decide)
  exact ⟨⟨h1.2.1.trans rfl, h1.2.2.1 rfl⟩, h2.2.1, h2.2.2.1⟩

namespace Orchestration

theorem cost_eq_pairEntry (table : List ProviderPricing) (provider model : String)
    (itok otok : Nat) :
    cost table provider model itok otok
      = (pairEntry table provider model).map
          (fun pr => (itok : ℚ) / 1000 * pr.1 + (otok : ℚ) / 1000 * pr.2) := by
  unfold cost pairEntry
  cases hfp : findProvider table provider with
  | none => simp
  | some pp =>
      cases hfm : findModel pp.models model with
      | none => simp [hfm]
      | some mp => simp [hfm]

end Orchestration

open Orchestration in
/-- C6: for every (provider, model, input_tokens, output_tokens), the Cost
Model returns null when the (provider, model) pair is absent from the pricing
table, and otherwise returns exactly
input_tokens/1000 * price_in + output_tokens/1000 * price_out using that
pair's table entry; being a total function, it never raises an error. -/
theorem c6_cost_model_lookup (table : List ProviderPricing)
    (provider model : String) (itok otok : Nat) :
    (pairEntry table provider model = none →
      cost table provider model itok otok = none)
    ∧ ∀ price_in price_out : ℚ,
        pairEntry table provider model = some (price_in, price_out) →
        cost table provider model itok otok
          = some ((itok : ℚ) / 1000 * price_in + (otok : ℚ) / 1000 * price_out) := by
  constructor
  · intro h
    rw [cost_eq_pairEntry, h]
    rfl
  · intro price_in price_out h
    rw [cost_eq_pairEntry, h]
    rfl

open Orchestration in
/-- C6 witness: on a sample table, a listed (provider, model) pair yields the
linear token formula and an unlisted pair yields null. -/
theorem c6_cost_model_lookup_witness :
    cost sampleTable "openai" "gpt-4o-mini" 500 200
      = some ((500 : ℚ) / 1000 * (3/20000) + (200 : ℚ) / 1000 * (3/5000))
    ∧ cost sampleTable "mistral" "mistral-large" 500 200 = none :=
  ⟨(c6_cost_model_lookup sampleTable "openai" "gpt-4o-mini" 500 200).2
      (3/20000) (3/5000) rfl,
   (c6_cost_model_lookup sampleTable "mistral" "mistral-large" 500 200).1 rfl⟩

open APIService in
/-- C10: for every API call through the frontend client's request function,
a response with ok = false yields a thrown error (never a returned value), an
ok response with status 204 returns null, and any other ok response whose
body parses as JSON returns the parsed body — so callers never receive an
error payload as a successful result. -/
theorem c10_request_error_discipline (r : HttpResponse) :
    (r.ok = false → ∀ v : Option Json, request (.success r) ≠ .ok v)
    ∧ (r.ok = true → r.status = 204 → request (.success r) = .ok none)
    ∧ (∀ v : Json, r.ok = true → r.status ≠ 204 → r.body = .json v →
        request (.success r) = .ok (some v)) := by
  refine ⟨?_, ?_, ?_⟩
  · intro hok v
    simp [request, hok]
  · intro hok h204
    simp [request, hok, h204]
  · intro v hok h204 hbody
    simp [request, hok, hbody, h204]

open APIService in
/-- C10 witness: a 422 error response never comes back as a success, a 204
returns null, and a 200 with a JSON body returns that body. -/
theorem c10_request_error_discipline_witness :
    request (.success respErr) ≠ .ok (some sampleJson)
    ∧ request (.success resp204) = .ok none
    ∧ request (.success respOkJson) = .ok (some sampleJson) :=
  ⟨(c10_request_error_discipline respErr).1 rfl (some sampleJson),
   (c10_request_error_discipline resp204).2.1 rfl rfl,
   (c10_request_error_discipline respOkJson).2.2 sampleJson rfl (by decide) rfl⟩

namespace CycleCreateDialog

theorem reachable_timeframe (d : DialogState) (h : DialogReachable d) :
    d.formData.timeframe_days = 1 ∨ d.formData.timeframe_days = 3
      ∨ d.formData.timeframe_days = 7 := by
  induction h with
  | init => exact Or.inl rfl
  | step h hs ih =>
      cases hs with
      | setName v => exact ih
      | setTimeframe v hv => simpa [TIMEFRAME_OPTIONS] using hv
      | setProvider p hp => exact ih
      | setModel m hm => exact ih
      | toggleConfig c => exact ih
      | close => exact Or.inl rfl

theorem dialog3_reachable : DialogReachable dialog3 :=
  .step (.step (.step .init (.setName dialog0 "Tech Weekly"))
    (.setTimeframe dialog1 3 (by decide)))
    (.toggleConfig dialog2 cfg0)

end CycleCreateDialog

namespace DigestWizard

theorem reachable_invariant (s : WizardState) (h : WReachable s) :
    (1 ≤ s.activeStep → jsTrim s.digestName ≠ "")
    ∧ (2 ≤ s.activeStep → s.selectedSources ≠ [])
    ∧ (s.timeframeDays = 1 ∨ s.timeframeDays = 3 ∨ s.timeframeDays = 7) := by
  induction h with
  | init =>
      refine ⟨?_, ?_, Or.inl rfl⟩ <;> simp [initialState]
  | step h hs ih =>
      rename_i sp s2
      cases hs with
      | setName v h0 =>
          dsimp only
          exact ⟨fun h1 => ((by omega : False).elim),
            fun h2 => ((by omega : False).elim), ih.2.2⟩
      | next h0 =>
          unfold handleNext
          split_ifs with h1 h2
          · exact ih
          · exact ih
          · dsimp only
            refine ⟨?_, ?_, ih.2.2⟩
            · intro hh
              by_cases hz : sp.activeStep = 0
              · rcases not_and_or.mp h1 with hc | hc
                · exact absurd hz hc
                · exact hc
              · exact ih.1 (by omega)
            · intro hh
              by_cases ho : sp.activeStep = 1
              · rcases not_and_or.mp h2 with hc | hc
                · exact absurd ho hc
                · exact hc
              · exact ih.2.1 (by omega)
      | back h0 =>
          unfold handleBack
          dsimp only
          exact ⟨fun h1 => ih.1 (by omega), fun h2 => ih.2.1 (by omega), ih.2.2⟩
      | toggleSource sourceId h0 hid =>
          unfold handleSourceToggle
          split_ifs with hmem <;> dsimp only <;>
            exact ⟨fun h1 => ih.1 h1, fun h2 => ((by omega : False).elim), ih.2.2⟩
      | configChange sourceId field v h0 => exact ih
      | setTimeframe n h0 hn =>
          exact ⟨fun h1 => ih.1 h1, fun h2 => ih.2.1 h2,
            by simpa [timeframeMenuValues] using hn⟩
      | setRunMode m h0 hm => exact ih
      | setProvider p h0 hp => exact ih
      | setModel m h0 hm => exact ih
      | setPrompt v h0 => exact ih
      | reset =>
          refine ⟨?_, ?_, Or.inl rfl⟩ <;> simp [initialState]

theorem wiz6_reachable : WReachable wiz6 :=
  .step (.step (.step (.step (.step (.step .init
    (.setName wiz0 "Tech Daily" rfl))
    (.next wiz1 (by decide)))
    (.toggleSource wiz2 "reddit" (by decide) (by decide)))
    (.next wiz3 (by decide)))
    (.next wiz4 (by decide)))
    (.next wiz5 (by decide))

end DigestWizard

/-- C7: for every cycle-creation submission whose name is empty after
trimming whitespace or whose source list is empty, the request is rejected
with a validation error before any Cycle is created: in the dialog,
handleSubmit rejects and never builds the createCycle payload; in the wizard,
handleNext refuses to leave the Name step with an empty trimmed name or the
Sources step with no sources (showing a validation error), so no reachable
state of the Review step — the only place the creation call is issued — has
an empty trimmed name or an empty source list. -/
theorem c7_validation_blocks_empty_submission :
    (∀ d : CycleCreateDialog.DialogState,
        jsTrim d.formData.name = "" ∨ d.selectedConfigs = [] →
        (CycleCreateDialog.handleSubmit d).isRejected = true
        ∧ ∀ p, CycleCreateDialog.handleSubmit d ≠ .sent p)
    ∧ (∀ s : DigestWizard.WizardState, s.activeStep = 0 → jsTrim s.digestName = "" →
        (DigestWizard.handleNext s).activeStep = 0
        ∧ (DigestWizard.handleNext s).error = some "Please enter a digest name")
    ∧ (∀ s : DigestWizard.WizardState, s.activeStep = 1 → s.selectedSources = [] →
        (DigestWizard.handleNext s).activeStep = 1
        ∧ (DigestWizard.handleNext s).error = some "Please select at least one source")
    ∧ (∀ s : DigestWizard.WizardState, DigestWizard.WReachable s → s.activeStep = 4 →
        jsTrim s.digestName ≠ "" ∧ s.selectedSources ≠ []) := by
  refine ⟨?_, ?_, ?_, ?_⟩
  · intro d hd
    unfold CycleCreateDialog.handleSubmit
    by_cases h1 : jsTrim d.formData.name = ""
    · rw [if_pos h1]
      exact ⟨rfl, fun p => by simp⟩
    · rcases hd with hd | hd
      · exact absurd hd h1
      · rw [if_neg h1, if_pos (by simp [hd])]
        exact ⟨rfl, fun p => by simp⟩
  · intro s h0 hname
    unfold DigestWizard.handleNext
    rw [if_pos ⟨h0, hname⟩]
    exact ⟨h0, rfl⟩
  · intro s h1 hsrc
    unfold DigestWizard.handleNext
    rw [if_neg (by simp [h1]), if_pos ⟨h1, hsrc⟩]
    exact ⟨h1, rfl⟩
  · intro s hs h4
    exact ⟨(DigestWizard.reachable_invariant s hs).1 (by omega),
      (DigestWizard.reachable_invariant s hs).2.1 (by omega)⟩

/-- C7 witness: the freshly opened dialog (empty name) is rejected and never
posts, and the reachable Review-step state wiz6 has a non-empty trimmed name
and a non-empty source list. -/
theorem c7_validation_blocks_empty_submission_witness :
    (CycleCreateDialog.handleSubmit CycleCreateDialog.initialState).isRejected = true
    ∧ CycleCreateDialog.handleSubmit CycleCreateDialog.initialState
        ≠ .sent CycleCreateDialog.payload3
    ∧ jsTrim DigestWizard.wiz6.digestName ≠ ""
    ∧ DigestWizard.wiz6.selectedSources ≠ [] := by
  have h1 := c7_validation_blocks_empty_submission.1 CycleCreateDialog.initialState
    (Or.inl rfl)
  have h4 := c7_validation_blocks_empty_submission.2.2.2 DigestWizard.wiz6
    DigestWizard.wiz6_reachable (by decide)
  exact ⟨h1.1, h1.2 CycleCreateDialog.payload3, h4.1, h4.2⟩

/-- C8: every cycle-creation request payload constructed by the UI has
timeframe_days drawn from the offered options 1, 3, 7 — in the dialog, any
payload actually sent from a reachable state; in the wizard, the payload
built by handleSubmit in any reachable state — and therefore always satisfies
1 ≤ timeframe_days ≤ 7. -/
theorem c8_timeframe_within_bounds :
    (∀ d : CycleCreateDialog.DialogState, CycleCreateDialog.DialogReachable d →
      ∀ p, CycleCreateDialog.handleSubmit d = .sent p →
        p.timeframe_days ∈ [1, 3, 7]
        ∧ 1 ≤ p.timeframe_days ∧ p.timeframe_days ≤ 7)
    ∧ (∀ s : DigestWizard.WizardState, DigestWizard.WReachable s →
        (DigestWizard.handleSubmit s).timeframe_days ∈ [1, 3, 7]
        ∧ 1 ≤ (DigestWizard.handleSubmit s).timeframe_days
        ∧ (DigestWizard.handleSubmit s).timeframe_days ≤ 7) := by
  constructor
  · intro d hd p hp
    have hm := CycleCreateDialog.reachable_timeframe d hd
    have hpt : p.timeframe_days = d.formData.timeframe_days := by
      unfold CycleCreateDialog.handleSubmit at hp
      split_ifs at hp with h1 h2
      simp only [SubmitAction.sent.injEq] at hp
      subst hp
      rfl
    rw [hpt]
    exact ⟨by rcases hm with h | h | h <;> simp [h],
      by rcases hm with h | h | h <;> omega,
      by rcases hm with h | h | h <;> omega⟩
  · intro s hs
    have hm := (DigestWizard.reachable_invariant s hs).2.2
    have hpt : (DigestWizard.handleSubmit s).timeframe_days = s.timeframeDays := rfl
    rw [hpt]
    exact ⟨by rcases hm with h | h | h <;> simp [h],
      by rcases hm with h | h | h <;> omega,
      by rcases hm with h | h | h <;> omega⟩

/-- C8 witness: the payload sent from the reachable dialog state dialog3 has
timeframe_days = 3 within bounds, and the payload built from the reachable
wizard state wiz6 is within bounds as well. -/
theorem c8_timeframe_within_bounds_witness :
    (CycleCreateDialog.payload3.timeframe_days ∈ [1, 3, 7]
      ∧ 1 ≤ CycleCreateDialog.payload3.timeframe_days
      ∧ CycleCreateDialog.payload3.timeframe_days ≤ 7)
    ∧ ((DigestWizard.handleSubmit DigestWizard.wiz6).timeframe_days ∈ [1, 3, 7]
      ∧ 1 ≤ (DigestWizard.handleSubmit DigestWizard.wiz6).timeframe_days
      ∧ (DigestWizard.handleSubmit DigestWizard.wiz6).timeframe_days ≤ 7) :=
  ⟨c8_timeframe_within_bounds.1 CycleCreateDialog.dialog3
      CycleCreateDialog.dialog3_reachable CycleCreateDialog.payload3 (by decide),
   c8_timeframe_within_bounds.2 DigestWizard.wiz6 DigestWizard.wiz6_reachable⟩

/-- C9: for every wizard submission, the cycle-creation payload's
custom_prompt field is null if and only if the prompt text equals the
built-in default prompt string; otherwise custom_prompt equals the
user-edited prompt text verbatim. -/
theorem c9_custom_prompt_null_iff_default (s : DigestWizard.WizardState) :
    ((DigestWizard.handleSubmit s).custom_prompt = none
      ↔ s.customPrompt = DigestWizard.DEFAULT_PROMPT)
    ∧ (s.customPrompt ≠ DigestWizard.DEFAULT_PROMPT →
        (DigestWizard.handleSubmit s).custom_prompt = some s.customPrompt) := by
  unfold DigestWizard.handleSubmit
  by_cases h : s.customPrompt = DigestWizard.DEFAULT_PROMPT
  · simp [h]
  · simp [h]

/-- C9 witness: a wizard state whose prompt was edited away from the default
sends that edited prompt verbatim, and an unedited state sends null. -/
theorem c9_custom_prompt_null_iff_default_witness :
    (DigestWizard.handleSubmit DigestWizard.wizEdited).custom_prompt
      = some "Summarize briefly."
    ∧ (DigestWizard.handleSubmit DigestWizard.initialState).custom_prompt = none :=
  ⟨(c9_custom_prompt_null_iff_default DigestWizard.wizEdited).2 (by decide),
   (c9_custom_prompt_null_iff_default DigestWizard.initialState).1.mpr rfl⟩
